import Mathlib

/-!
Verification development for the Signal-Processor service (`src/app.py`).

The file shallowly embeds the Python source: JSON documents become an
insertion-ordered association list (modelling a Python `dict`), each outbound
HTTP call's outcome is supplied by an environment (`CallResp`), and the
handlers `get_full_url`, `distribute_signal`, `process_signal` and
`health_check` are translated function by function.  Exceptions are modelled
with `Except`; the network and the JSON parser are oracles provided as input,
since the dispatcher only branches on their results.
-/

/-- A JSON-compatible value, as carried in signal documents and HTTP bodies. -/
inductive JVal where
  | str (s : String)
  | num (n : Int)
  | bool (b : Bool)
  | null
  | arr (elems : List JVal)
  | obj (fields : List (String × JVal))
  deriving Repr

/-- A Python `dict` with string keys, in insertion order (as `dict` preserves). -/
abbrev Doc := List (String × JVal)

/-- Python `d.get(k)`: the first (unique) binding of `k`, if any. -/
def getKey? (d : Doc) (k : String) : Option JVal :=
  (d.find? (fun p => p.1 = k)).map (fun p => p.2)

/-- Python `k in d` on a dict. -/
def hasKey (d : Doc) (k : String) : Bool :=
  d.any (fun p => p.1 = k)

/-- Python `d[k] = v` on a dict: overwrite in place if the key exists,
append otherwise. -/
def setKey (d : Doc) (k : String) (v : JVal) : Doc :=
  if hasKey d k then d.map (fun p => if p.1 = k then (k, v) else p)
  else d ++ [(k, v)]

/-- The test `url.startswith(('http://', 'https://'))` of src/app.py line 30. -/
def hasScheme (u : String) : Bool :=
  "http://".data.isPrefixOf u.data || "https://".data.isPrefixOf u.data

/-- Python `str.rstrip('/')`. -/
def rstripSlash (s : String) : String :=
  ⟨(s.data.reverse.dropWhile (fun c => c = '/')).reverse⟩

/-- Python `str.lstrip('/')`. -/
def lstripSlash (s : String) : String :=
  ⟨s.data.dropWhile (fun c => c = '/')⟩

/-- Function `get_full_url` (src/app.py lines 28-32): default the scheme to
`https://` when absent, then join the slash-stripped base and endpoint with
one `/`. -/
def get_full_url (url : String) (endpoint : String) : String :=
  let u := if hasScheme url then url else "https://" ++ url
  rstripSlash u ++ "/" ++ lstripSlash endpoint

/-- The path component of a resolved URL (`resp.url.path` in src/app.py
lines 100/103): everything from the first `/` after the scheme. -/
def urlPath (u : String) : String :=
  let rest :=
    if "https://".data.isPrefixOf u.data then u.data.drop 8
    else if "http://".data.isPrefixOf u.data then u.data.drop 7
    else u.data
  ⟨rest.dropWhile (fun c => c ≠ '/')⟩

/-- Outcome of one outbound HTTP call, as delivered by the environment:
either the request raised (`exc`, with the exception's message), or a
response arrived with a status code, its raw body text, and the result of
parsing that body as JSON (`Except.error` carries the message of the
exception `resp.json()` would raise). -/
inductive CallResp where
  | exc (msg : String)
  | resp (status : Nat) (text : String) (json : Except String JVal)

/-- The four validated service base addresses (src/app.py lines 16-26
guarantee they are set at startup). -/
structure Config where
  telegram_service_url : String
  ai_signal_service_url : String
  news_ai_service_url : String
  subscriber_matcher_url : String

/-- One request's network environment: the outcome each of the four
outbound calls would produce. -/
structure Net where
  matcher : CallResp
  ai_signal : CallResp
  news_ai : CallResp
  telegram : CallResp

/-- A record of one outbound POST as issued: target URL, JSON payload, and
whether TLS certificate verification is enabled (`ssl=False` disables it;
aiohttp's default verifies). -/
structure OutCall where
  url : String
  payload : Doc
  sslVerify : Bool

/-- Lookup `sub['chat_id']` (src/app.py line 54): succeeds only when the
subscriber record is an object carrying the key; any other shape raises
(KeyError/TypeError), modelled as `none`. -/
def subChatId (sub : JVal) : Option JVal :=
  match sub with
  | .obj fs => getKey? fs "chat_id"
  | _ => none

/-- The list comprehension `[sub['chat_id'] for sub in chat_ids]`: fails as
a whole (raises before any assignment) if any element fails. -/
def chatIdList : List JVal → Option (List JVal)
  | [] => some []
  | sub :: subs =>
    match subChatId sub, chatIdList subs with
    | some v, some vs => some (v :: vs)
    | _, _ => none

/-- Lines 52-54: from a parsed 200 body, `subscriber_data.get
('matched_subscribers', [])` then the chat-id comprehension.  A non-object
body or a non-list `matched_subscribers` value makes the Python raise
(AttributeError/TypeError), modelled as `none`; an absent key defaults to
`[]`, giving `some []`. -/
def extractChatIds (body : JVal) : Option (List JVal) :=
  match body with
  | .obj fields =>
    match getKey? fields "matched_subscribers" with
    | none => some []
    | some (.arr subs) => chatIdList subs
    | some _ => none
  | _ => none

/-- The subscriber-matcher step (src/app.py lines 49-59): on a 200 response
whose body parses and yields a chat-id list, assign `signal['chat_ids']`;
every failure (transport exception, non-200 status, unparsable body,
malformed records) is caught by the surrounding `except` and leaves the
signal untouched. -/
def enrich (signal : Doc) (matcher : CallResp) : Doc :=
  match matcher with
  | .exc _ => signal
  | .resp status _ json =>
    if status = 200 then
      match json with
      | .error _ => signal
      | .ok body =>
        match extractChatIds body with
        | none => signal
        | some ids => setKey signal "chat_ids" (.arr ids)
    else signal

/-- Response processing for one fan-out task (src/app.py lines 90-106):
a gathered exception is recorded under `service_<i>`; a 200 response whose
body parses is recorded under the response URL's path; a non-200 response
records `{"error": <raw text>}` under the path; a 200 response whose body
fails to parse raises inside the inner `try` and is recorded under
`service_<i>`. -/
def procOne (results : Doc) (i : Nat) (url : String) (r : CallResp) : Doc :=
  match r with
  | .exc msg => setKey results ("service_" ++ toString i) (.obj [("error", .str msg)])
  | .resp status text json =>
    if status = 200 then
      match json with
      | .ok body => setKey results (urlPath url) body
      | .error e => setKey results ("service_" ++ toString i) (.obj [("error", .str e)])
    else
      setKey results (urlPath url) (.obj [("error", .str text)])

/-- Function `distribute_signal` (src/app.py lines 34-108): resolve the four URLs,
run the matcher step (mutating the signal on success), issue the three
fan-out POSTs with `ssl=False` carrying the (possibly enriched) signal, and
fold the gathered responses into the `results` dict in task order
(0 = AI signal, 1 = news AI, 2 = telegram).  Returns the results together
with the log of outbound calls in the order they are issued. -/
def distribute_signal (cfg : Config) (net : Net) (signal : Doc) : Doc × List OutCall :=
  let telegram_url := get_full_url cfg.telegram_service_url "send"
  let ai_signal_url := get_full_url cfg.ai_signal_service_url "analyze"
  let news_ai_url := get_full_url cfg.news_ai_service_url "analyze"
  let subscriber_matcher_url := get_full_url cfg.subscriber_matcher_url "match"
  let enriched := enrich signal net.matcher
  let calls : List OutCall :=
    [⟨subscriber_matcher_url, signal, true⟩,
     ⟨ai_signal_url, enriched, false⟩,
     ⟨news_ai_url, enriched, false⟩,
     ⟨telegram_url, enriched, false⟩]
  let r0 := procOne [] 0 ai_signal_url net.ai_signal
  let r1 := procOne r0 1 news_ai_url net.news_ai
  let r2 := procOne r1 2 telegram_url net.telegram
  (r2, calls)

/-- The exception `fastapi.HTTPException(status_code, detail)`. -/
structure HTTPExc where
  status_code : Nat
  detail : String

/-- Starlette's `HTTPException.__str__`: `f"{status_code}: {detail}"`,
which is what `str(e)` yields in the handlers' `except` blocks. -/
def excToString (e : HTTPExc) : String :=
  toString e.status_code ++ ": " ++ e.detail

/-- The required-field list of `process_signal` (src/app.py line 119). -/
def required_fields : List String :=
  ["symbol", "action", "price", "stopLoss", "takeProfit", "interval"]

/-- What the `/signal` route hands back to the HTTP layer: a 200 JSON body
`{"status": "success", "results": ...}` or a raised `HTTPException`. -/
inductive SigResponse where
  | success (results : Doc)
  | httpError (status : Nat) (detail : String)

/-- The body of `process_signal`'s `try` block (src/app.py lines 118-129):
raise `HTTPException(400, ...)` at the first missing required field,
otherwise distribute and wrap the results. -/
def process_signal_try (cfg : Config) (net : Net) (signal : Doc) :
    Except HTTPExc (Doc × List OutCall) :=
  match required_fields.find? (fun f => ! hasKey signal f) with
  | some f => .error ⟨400, "Missing required field: " ++ f⟩
  | none => .ok (distribute_signal cfg net signal)

/-- Handler `process_signal` (src/app.py lines 114-132).  The `except Exception`
at line 130 also catches the `HTTPException` raised by the validation at
line 122 (fastapi's `HTTPException` subclasses `Exception`), so every
failure is re-raised as `HTTPException(500, str(e))`.  Returns the HTTP
outcome together with the outbound calls issued. -/
def process_signal (cfg : Config) (net : Net) (signal : Doc) :
    SigResponse × List OutCall :=
  match process_signal_try cfg net signal with
  | .error e => (.httpError 500 (excToString e), [])
  | .ok (results, calls) => (.success results, calls)

/-- Environment snapshot read by `health_check`: `os.getenv` for each of the
four service URL variables (`none` when unset). -/
structure HEnv where
  telegram : Option String
  ai_signal : Option String
  news_ai : Option String
  subscriber_matcher : Option String

/-- Outcome of one `GET <base>/health` probe: the request raised, or a
response with a status code. -/
inductive ProbeResp where
  | exc (msg : String)
  | resp (status : Nat)

/-- The probe outcome each dependency's health URL would produce. -/
structure HProbes where
  telegram : ProbeResp
  ai_signal : ProbeResp
  news_ai : ProbeResp
  subscriber_matcher : ProbeResp

/-- Python truthiness test `if not url:` on an `os.getenv` result: true for
`None` and for the empty string. -/
def pyFalsy (u : Option String) : Bool :=
  match u with
  | none => true
  | some s => s = ""

/-- A record of one health probe as issued (`session.get(url, ssl=False)`,
src/app.py line 158). -/
structure ProbeCall where
  url : String
  sslVerify : Bool
  deriving DecidableEq

/-- State built by `health_check`'s loop: composite status string, the
`dependencies` dict (insertion order), and the probes issued so far. -/
structure HealthState where
  status : String
  dependencies : List (String × String)
  calls : List ProbeCall

/-- One iteration of `health_check`'s loop (src/app.py lines 150-166) for a
dependency `name` whose env var holds `url?` and whose probe would yield
`probe`: a falsy URL records `missing_url` and degrades without probing;
otherwise a `GET <full>/health` with `ssl=False` is issued and classified. -/
def healthStep (st : HealthState) (name : String) (url? : Option String)
    (probe : ProbeResp) : HealthState :=
  if pyFalsy url? then
    { st with
      status := "degraded",
      dependencies := st.dependencies ++ [(name, "missing_url")] }
  else
    let full := get_full_url (url?.getD "") "health"
    let st := { st with calls := st.calls ++ [ProbeCall.mk full false] }
    match probe with
    | .resp status =>
      if status = 200 then
        { st with dependencies := st.dependencies ++ [(name, "healthy")] }
      else
        { st with
          status := "degraded",
          dependencies := st.dependencies ++ [(name, "unhealthy_" ++ toString status)] }
    | .exc msg =>
      { st with
        status := "degraded",
        dependencies := st.dependencies ++ [(name, "error_" ++ msg)] }

/-- Handler `health_check` (src/app.py lines 134-168): start `healthy`, then fold
the loop body over the four dependencies in dict order. -/
def health_check (env : HEnv) (probes : HProbes) : HealthState :=
  let st0 : HealthState := ⟨"healthy", [], []⟩
  let st1 := healthStep st0 "telegram" env.telegram probes.telegram
  let st2 := healthStep st1 "ai_signal" env.ai_signal probes.ai_signal
  let st3 := healthStep st2 "news_ai" env.news_ai probes.news_ai
  healthStep st3 "subscriber_matcher" env.subscriber_matcher probes.subscriber_matcher

/-- The per-dependency classification string `health_check` records, as the
spec describes it: `missing_url` for an unset/empty address, `healthy` on a
200 probe, `unhealthy_<code>` on any other status, `error_<message>` on a
probe exception. -/
def classifyDep (url? : Option String) (probe : ProbeResp) : String :=
  if pyFalsy url? then "missing_url"
  else
    match probe with
    | .resp status => if status = 200 then "healthy" else "unhealthy_" ++ toString status
    | .exc msg => "error_" ++ msg

/-- The key under which `procOne` records a call's outcome, read off the
spec's aggregation contract for comparison: the response URL's path for a
completed call, `service_<i>` for a gathered exception or an unparsable
200 body. -/
def resultKey (i : Nat) (url : String) (r : CallResp) : String :=
  match r with
  | .exc _ => "service_" ++ toString i
  | .resp status _ json =>
    if status = 200 then
      match json with
      | .ok _ => urlPath url
      | .error _ => "service_" ++ toString i
    else urlPath url

/-- The value `procOne` records for a call, read off the spec's outcome
taxonomy for comparison: the parsed body on a 200 JSON response, otherwise
an `{"error": ...}` object carrying the raw body text (non-200) or the
exception message (transport or parse failure). -/
def specOutcomeValue (r : CallResp) : JVal :=
  match r with
  | .exc msg => .obj [("error", .str msg)]
  | .resp status text json =>
    if status = 200 then
      match json with
      | .ok body => body
      | .error e => .obj [("error", .str e)]
    else .obj [("error", .str text)]

/-- Key-set effect of one dict store: the key list is unchanged when the
key is already bound, else the key is appended. -/
def insertKeyName (ks : List String) (k : String) : List String :=
  if k ∈ ks then ks else ks ++ [k]

/-- An outbound call outcome the claims count as a failure: a transport
exception, or a completed response with a non-200 status. -/
def isCallFailure (r : CallResp) : Bool :=
  match r with
  | .exc _ => true
  | .resp status _ _ => status ≠ 200

/-- A value of the `{"error": <message>}` shape recorded for failed calls. -/
def isErrorEntry (v : JVal) : Prop :=
  ∃ m, v = JVal.obj [("error", JVal.str m)]

/-- A signal that passes the required-field validation of `/signal`. -/
def validSignal (signal : Doc) : Bool :=
  required_fields.all (fun f => hasKey signal f)

/-- A string of `n` slashes, for the resolver normalization properties. -/
def slashes (n : Nat) : String :=
  ⟨List.replicate n '/'⟩

/-- A concrete configuration used by the closed evaluations below. -/
def cfgEx : Config :=
  ⟨"t.example.com", "ai.example.com", "news.example.com", "match.example.com"⟩

/-- A concrete valid signal: all six required fields present. -/
def sigEx : Doc :=
  [("symbol", .str "EURUSD"), ("action", .str "buy"), ("price", .num 1),
   ("stopLoss", .num 2), ("takeProfit", .num 3), ("interval", .str "1h")]

/-- A network where the matcher and all three fan-out calls return 200 with
JSON bodies. -/
def netAllOk : Net :=
  ⟨.resp 200 "" (.ok (.obj [("matched_subscribers", .arr [.obj [("chat_id", .num 7)]])])),
   .resp 200 "" (.ok (.str "ai")),
   .resp 200 "" (.ok (.str "news")),
   .resp 200 "" (.ok (.str "tg"))⟩

/-- A network where every call fails: the matcher and two fan-out calls
raise, the third fan-out call returns a 500. -/
def netAllFail : Net :=
  ⟨.exc "matcher down",
   .exc "conn refused",
   .resp 500 "oops" (.error "bad json"),
   .exc "timeout"⟩

/-- A network where only the subscriber matcher fails (transport error) and
the three fan-out calls all return 200 JSON bodies. -/
def netMatcherFail : Net :=
  ⟨.exc "matcher down",
   .resp 200 "" (.ok (.str "ai")),
   .resp 200 "" (.ok (.str "news")),
   .resp 200 "" (.ok (.str "tg"))⟩

/-- A network with one success, one remote error and one transport error on
the fan-out. -/
def netMixed : Net :=
  ⟨.resp 404 "no match" (.error "not json"),
   .resp 200 "{}" (.ok (.obj [])),
   .resp 404 "not found" (.error "not json"),
   .exc "conn reset"⟩

/-- A network whose matcher returns 200 with one well-formed subscriber
record followed by one record lacking `chat_id`. -/
def netBadSub : Net :=
  ⟨.resp 200 ""
     (.ok (.obj [("matched_subscribers",
        .arr [.obj [("chat_id", .num 1)], .obj [("name", .str "x")]])])),
   .resp 200 "" (.ok (.str "ai")),
   .resp 200 "" (.ok (.str "news")),
   .resp 200 "" (.ok (.str "tg"))⟩

/-- A health environment with every service URL set. -/
def envEx : HEnv :=
  ⟨some "t.example.com", some "ai.example.com",
   some "news.example.com", some "match.example.com"⟩

/-- A health environment with the telegram URL unset. -/
def envMissingTel : HEnv :=
  ⟨none, some "ai.example.com", some "news.example.com", some "match.example.com"⟩

/-- Health probes that all answer 200. -/
def probesOk : HProbes :=
  ⟨.resp 200, .resp 200, .resp 200, .resp 200⟩

/-- Lookup in the `dependencies` report of `health_check`. -/
def lookupDep (deps : List (String × String)) (k : String) : Option String :=
  (deps.find? (fun p => p.1 = k)).map (fun p => p.2)

/-- The per-dependency report the spec describes, in dict order, for
comparison with what `health_check` builds. -/
def specHealthDeps (env : HEnv) (probes : HProbes) : List (String × String) :=
  [("telegram", classifyDep env.telegram probes.telegram),
   ("ai_signal", classifyDep env.ai_signal probes.ai_signal),
   ("news_ai", classifyDep env.news_ai probes.news_ai),
   ("subscriber_matcher", classifyDep env.subscriber_matcher probes.subscriber_matcher)]

/-! ### Association-list (Python dict) lemmas -/

theorem hasKey_iff_mem_keys (d : Doc) (k : String) :
    hasKey d k = true ↔ k ∈ d.map Prod.fst := by
  simp only [hasKey, List.any_eq_true, List.mem_map, decide_eq_true_eq]

theorem keys_setKey (d : Doc) (k : String) (v : JVal) :
    (setKey d k v).map Prod.fst = insertKeyName (d.map Prod.fst) k := by
  unfold setKey insertKeyName
  by_cases h : hasKey d k = true
  · rw [if_pos h, if_pos ((hasKey_iff_mem_keys d k).1 h), List.map_map]
    apply List.map_congr_left
    intro p _
    by_cases hpk : p.1 = k <;> simp [Function.comp, hpk]
  · rw [if_neg h, if_neg (fun hm => h ((hasKey_iff_mem_keys d k).2 hm))]
    simp

theorem find?_map_overwrite (d : Doc) (k k' : String) (v : JVal) (h : k' ≠ k) :
    (d.map (fun p => if p.1 = k then (k, v) else p)).find? (fun p => p.1 = k') =
      d.find? (fun p => p.1 = k') := by
  induction d with
  | nil => rfl
  | cons p d ih =>
    by_cases hpk : p.1 = k
    · rw [List.map_cons, if_pos hpk,
        List.find?_cons_of_neg _ (by simp [Ne.symm h]),
        List.find?_cons_of_neg _ (by simp [hpk, Ne.symm h])]
      exact ih
    · by_cases hpk' : p.1 = k'
      · rw [List.map_cons, if_neg hpk,
          List.find?_cons_of_pos _ (by simp [hpk']),
          List.find?_cons_of_pos _ (by simp [hpk'])]
      · rw [List.map_cons, if_neg hpk,
          List.find?_cons_of_neg _ (by simp [hpk']),
          List.find?_cons_of_neg _ (by simp [hpk'])]
        exact ih

theorem getKey?_setKey_ne (d : Doc) (k k' : String) (v : JVal) (h : k' ≠ k) :
    getKey? (setKey d k v) k' = getKey? d k' := by
  unfold setKey getKey?
  by_cases hk : hasKey d k = true
  · rw [if_pos hk, find?_map_overwrite d k k' v h]
  · rw [if_neg hk, List.find?_append]
    have : List.find? (fun p => p.1 = k') [(k, v)] = none := by
      simp [List.find?_cons, Ne.symm h]
    rw [this]
    cases List.find? (fun p => p.1 = k') d <;> rfl

theorem forall_setKey {P : JVal → Prop} (d : Doc) (k : String) (v : JVal)
    (hd : ∀ p ∈ d, P p.2) (hv : P v) : ∀ p ∈ setKey d k v, P p.2 := by
  intro p hp
  unfold setKey at hp
  by_cases hk : hasKey d k = true
  · rw [if_pos hk] at hp
    obtain ⟨q, hq, he⟩ := List.mem_map.1 hp
    by_cases hqk : q.1 = k
    · rw [if_pos hqk] at he; rw [← he]; exact hv
    · rw [if_neg hqk] at he; rw [← he]; exact hd q hq
  · rw [if_neg hk] at hp
    rcases List.mem_append.1 hp with h1 | h1
    · exact hd p h1
    · rw [List.mem_singleton.1 h1]; exact hv

theorem setKey_ne_nil (d : Doc) (k : String) (v : JVal) : setKey d k v ≠ [] := by
  unfold setKey
  by_cases hk : hasKey d k = true
  · rw [if_pos hk]
    intro h
    rw [List.map_eq_nil_iff] at h
    rw [h] at hk
    simp [hasKey] at hk
  · rw [if_neg hk]
    simp

/-! ### Aggregation and enrichment lemmas -/

theorem procOne_eq (results : Doc) (i : Nat) (url : String) (r : CallResp) :
    procOne results i url r = setKey results (resultKey i url r) (specOutcomeValue r) := by
  cases r with
  | exc m => rfl
  | resp s t j =>
    by_cases hs : s = 200
    · cases j <;> simp [procOne, resultKey, specOutcomeValue, hs]
    · simp [procOne, resultKey, specOutcomeValue, hs]

theorem keys_procOne (results : Doc) (i : Nat) (url : String) (r : CallResp) :
    (procOne results i url r).map Prod.fst =
      insertKeyName (results.map Prod.fst) (resultKey i url r) := by
  rw [procOne_eq, keys_setKey]

theorem procOne_failure (results : Doc) (i : Nat) (url : String) (r : CallResp)
    (hr : isCallFailure r = true)
    (hres : ∀ p ∈ results, isErrorEntry p.2) :
    (∀ p ∈ procOne results i url r, isErrorEntry p.2) ∧ procOne results i url r ≠ [] := by
  have hv : isErrorEntry (specOutcomeValue r) := by
    cases r with
    | exc m => exact ⟨m, rfl⟩
    | resp s t j =>
      simp only [isCallFailure, decide_eq_true_eq] at hr
      simp only [specOutcomeValue, if_neg hr]
      exact ⟨t, rfl⟩
  rw [procOne_eq]
  exact ⟨forall_setKey results _ _ hres hv, setKey_ne_nil _ _ _⟩

theorem chatIdList_none_of_any (subs : List JVal)
    (h : subs.any (fun sub => (subChatId sub).isNone) = true) :
    chatIdList subs = none := by
  induction subs with
  | nil => simp at h
  | cons sub subs ih =>
    rw [List.any_cons] at h
    cases hs : subChatId sub with
    | none => simp [chatIdList, hs]
    | some v =>
      have : subs.any (fun sub => (subChatId sub).isNone) = true := by
        rcases Bool.or_eq_true_iff.1 h with h1 | h1
        · rw [hs] at h1; simp at h1
        · exact h1
      simp [chatIdList, hs, ih this]

theorem enrich_cases (signal : Doc) (m : CallResp) :
    enrich signal m = signal ∨
      ∃ ids, enrich signal m = setKey signal "chat_ids" (JVal.arr ids) := by
  cases m with
  | exc _ => exact Or.inl rfl
  | resp s t j =>
    by_cases hs : s = 200
    · cases j with
      | error _ => simp [enrich, hs]
      | ok body =>
        cases hb : extractChatIds body with
        | none => simp [enrich, hs, hb]
        | some ids =>
          refine Or.inr ⟨ids, ?_⟩
          simp [enrich, hs, hb]
    · simp [enrich, hs]

theorem enrich_failure (signal : Doc) (m : CallResp) (h : isCallFailure m = true) :
    enrich signal m = signal := by
  cases m with
  | exc _ => rfl
  | resp s t j =>
    simp only [isCallFailure, decide_eq_true_eq] at h
    simp [enrich, h]

theorem process_signal_valid (cfg : Config) (net : Net) (signal : Doc)
    (hv : validSignal signal = true) :
    process_signal cfg net signal =
      (SigResponse.success (distribute_signal cfg net signal).1,
       (distribute_signal cfg net signal).2) := by
  unfold process_signal process_signal_try
  have hfind : required_fields.find? (fun f => ! hasKey signal f) = none := by
    rw [List.find?_eq_none]
    intro f hf
    have := List.all_eq_true.1 hv f hf
    simp [this]
  rw [hfind]

/-! ### String and URL-normalization lemmas -/

theorem dropWhile_slash_replicate (n : Nat) (l : List Char) :
    (List.replicate n '/' ++ l).dropWhile (fun c => c = '/') =
      l.dropWhile (fun c => c = '/') := by
  induction n with
  | zero => simp
  | succ n ih => simp [List.replicate_succ, ih]

theorem lstripSlash_slashes (n : Nat) (p : String) :
    lstripSlash (slashes n ++ p) = lstripSlash p := by
  unfold lstripSlash
  rw [String.data_append]
  rw [show (slashes n).data = List.replicate n '/' from rfl]
  rw [dropWhile_slash_replicate]

theorem rstripSlash_append_slashes (x : String) (n : Nat) :
    rstripSlash (x ++ slashes n) = rstripSlash x := by
  unfold rstripSlash
  rw [String.data_append, List.reverse_append]
  rw [show (slashes n).data = List.replicate n '/' from rfl, List.reverse_replicate]
  rw [dropWhile_slash_replicate]

theorem hasScheme_append_of_hasScheme (b s : String) (h : hasScheme b = true) :
    hasScheme (b ++ s) = true := by
  unfold hasScheme at h ⊢
  rw [String.data_append]
  rcases Bool.or_eq_true_iff.1 h with h1 | h1
  · apply Bool.or_eq_true_iff.2
    left
    rw [List.isPrefixOf_iff_prefix] at h1 ⊢
    exact h1.trans (List.prefix_append b.data s.data)
  · apply Bool.or_eq_true_iff.2
    right
    rw [List.isPrefixOf_iff_prefix] at h1 ⊢
    exact h1.trans (List.prefix_append b.data s.data)

theorem unhealthy_ne_healthy (s : String) : ("unhealthy_" ++ s) ≠ "healthy" := by
  intro h
  have h2 := congrArg String.length h
  rw [String.length_append] at h2
  rw [show ("unhealthy_" : String).length = 10 from rfl,
    show ("healthy" : String).length = 7 from rfl] at h2
  omega

theorem error_ne_healthy (s : String) : ("error_" ++ s) ≠ "healthy" := by
  intro h
  have h2 := congrArg String.data h
  rw [String.data_append] at h2
  rw [show ("error_" : String).data = ['e', 'r', 'r', 'o', 'r', '_'] from rfl,
    show ("healthy" : String).data = ['h', 'e', 'a', 'l', 't', 'h', 'y'] from rfl] at h2
  simp at h2

/-! ### Health-check lemmas -/

theorem healthStep_eq (st : HealthState) (name : String) (url? : Option String)
    (probe : ProbeResp) :
    healthStep st name url? probe =
      ⟨if classifyDep url? probe = "healthy" then st.status else "degraded",
       st.dependencies ++ [(name, classifyDep url? probe)],
       st.calls ++
         (if pyFalsy url? then []
          else [ProbeCall.mk (get_full_url (url?.getD "") "health") false])⟩ := by
  unfold healthStep classifyDep
  by_cases hf : pyFalsy url? = true
  · simp [hf]
  · simp only [hf, Bool.false_eq_true, if_false, if_neg]
    cases probe with
    | exc m => simp [hf, error_ne_healthy m]
    | resp s =>
      by_cases hs : s = 200
      · simp [hf, hs]
      · simp [hf, hs, unhealthy_ne_healthy (toString s)]

theorem healthStep_calls_false (st : HealthState) (name : String)
    (url? : Option String) (probe : ProbeResp)
    (h : ∀ c ∈ st.calls, c.sslVerify = false) :
    ∀ c ∈ (healthStep st name url? probe).calls, c.sslVerify = false := by
  rw [healthStep_eq]
  intro c hc
  rcases List.mem_append.1 hc with h1 | h1
  · exact h c h1
  · by_cases hf : pyFalsy url? = true
    · rw [if_pos hf] at h1
      simp at h1
    · rw [if_neg hf] at h1
      rw [List.mem_singleton.1 h1]

/-! ### Claim theorems -/

/-- C1, counterexample: with every downstream returning 200 JSON, the
`/signal` results dict has only the two keys `"/analyze"` and `"/send"` —
response-URL paths, not logical service names.  There is no entry for the
subscriber matcher, both analysis services collapsed into the single key
`"/analyze"` (the news body overwrote the AI body), and `"telegram"` never
appears, so the mapping does not contain one entry per configured
downstream dependency keyed by service name. -/
theorem c1_result_keying_counterexample :
    (process_signal cfgEx netAllOk sigEx).1 =
      SigResponse.success [("/analyze", JVal.str "news"), ("/send", JVal.str "tg")] ∧
    ([("/analyze", JVal.str "news"), ("/send", JVal.str "tg")] : Doc).map Prod.fst =
      ["/analyze", "/send"] ∧
    "telegram" ∉ (["/analyze", "/send"] : List String) ∧
    (["/analyze", "/send"] : List String).length ≠ 3 ∧
    (["/analyze", "/send"] : List String).length ≠ 4 := by
  exact ⟨rfl, rfl, by decide, by decide, by decide⟩

/-- C1, amended: the dispatcher keys results by the response URL's path for
a completed call and by `service_<index>` for a failed one, inserting the
three fan-out outcomes in task order into an initially empty dict; the
subscriber matcher contributes no entry, calls whose keys coincide collapse
into one entry, and the key set is a deterministic function of the
configuration and of each call's outcome classification. -/
theorem c1_result_keying_amended (cfg : Config) (net : Net) (signal : Doc) :
    ((distribute_signal cfg net signal).1).map Prod.fst =
      insertKeyName (insertKeyName (insertKeyName []
          (resultKey 0 (get_full_url cfg.ai_signal_service_url "analyze") net.ai_signal))
        (resultKey 1 (get_full_url cfg.news_ai_service_url "analyze") net.news_ai))
        (resultKey 2 (get_full_url cfg.telegram_service_url "send") net.telegram) := by
  show (procOne (procOne (procOne []
      0 (get_full_url cfg.ai_signal_service_url "analyze") net.ai_signal)
      1 (get_full_url cfg.news_ai_service_url "analyze") net.news_ai)
      2 (get_full_url cfg.telegram_service_url "send") net.telegram).map Prod.fst = _
  rw [keys_procOne, keys_procOne, keys_procOne]
  rfl

/-- C2: a signal missing a required field is rejected before any downstream
call is issued (the call log is empty), but the response is an HTTP 500,
not the 400 the claim and line 122 of src/app.py intend: the blanket
`except Exception` at line 130 catches the handler's own
`HTTPException(400, ...)` (fastapi's `HTTPException` subclasses
`Exception`) and re-raises it as `HTTPException(500, str(e))`, where
`str(e)` is `"400: Missing required field: <field>"`. -/
theorem c2_validation_rewrapped_as_500 :
    process_signal cfgEx netAllOk ([] : Doc) =
      (SigResponse.httpError 500 "400: Missing required field: symbol", []) ∧
    process_signal cfgEx netAllOk
      [("symbol", JVal.str "X"), ("action", JVal.str "buy"), ("price", JVal.num 1),
       ("stopLoss", JVal.num 2), ("takeProfit", JVal.num 3)] =
      (SigResponse.httpError 500 "400: Missing required field: interval", []) ∧
    (500 : Nat) ≠ 400 := by
  exact ⟨rfl, rfl, by decide⟩

/-- C3: for a valid signal, when all three fan-out calls fail (transport
exception or non-200 status), `/signal` still answers with the
orchestration-level success body, and the results dict is a non-empty map
whose every entry is an `{"error": <message>}` object — per-call failures
never escalate to a top-level failure. -/
theorem c3_all_failures_still_success (cfg : Config) (net : Net) (signal : Doc)
    (hv : validSignal signal = true)
    (h0 : isCallFailure net.ai_signal = true)
    (h1 : isCallFailure net.news_ai = true)
    (h2 : isCallFailure net.telegram = true) :
    (process_signal cfg net signal).1 =
      SigResponse.success (distribute_signal cfg net signal).1 ∧
    (distribute_signal cfg net signal).1 ≠ [] ∧
    ∀ p ∈ (distribute_signal cfg net signal).1, isErrorEntry p.2 := by
  have base : ∀ p ∈ ([] : Doc), isErrorEntry p.2 := by
    intro p hp
    exact absurd hp (List.not_mem_nil p)
  have s0 := procOne_failure []
    0 (get_full_url cfg.ai_signal_service_url "analyze") net.ai_signal h0 base
  have s1 := procOne_failure _
    1 (get_full_url cfg.news_ai_service_url "analyze") net.news_ai h1 s0.1
  have s2 := procOne_failure _
    2 (get_full_url cfg.telegram_service_url "send") net.telegram h2 s1.1
  refine ⟨?_, s2.2, s2.1⟩
  rw [process_signal_valid cfg net signal hv]

/-- C3 witness: the closed instance at the concrete valid signal and the
all-failing network. -/
theorem c3_all_failures_still_success_witness :
    (process_signal cfgEx netAllFail sigEx).1 =
      SigResponse.success (distribute_signal cfgEx netAllFail sigEx).1 ∧
    (distribute_signal cfgEx netAllFail sigEx).1 ≠ [] ∧
    ∀ p ∈ (distribute_signal cfgEx netAllFail sigEx).1, isErrorEntry p.2 :=
  c3_all_failures_still_success cfgEx netAllFail sigEx
    (by decide) (by decide) (by decide) (by decide)

/-- C4, counterexample: when only the subscriber matcher fails, the fan-out
does proceed (three calls are issued) but the results dict holds just two
entries for the three other dependencies: the AI-signal and news-AI calls
share the key `"/analyze"`, so the news body overwrites the AI body and no
entry carries the AI-signal outcome (`JVal.str "ai"` appears nowhere). -/
theorem c4_matcher_failure_counterexample :
    (distribute_signal cfgEx netMatcherFail sigEx).1 =
      [("/analyze", JVal.str "news"), ("/send", JVal.str "tg")] ∧
    (distribute_signal cfgEx netMatcherFail sigEx).1.length = 2 ∧
    ((distribute_signal cfgEx netMatcherFail sigEx).1).map Prod.snd =
      [JVal.str "news", JVal.str "tg"] ∧
    (2 : Nat) ≠ 3 := by
  exact ⟨rfl, rfl, rfl, by decide⟩

/-- C4, amended: if the subscriber-matching call fails (transport exception
or non-200 status), the dispatcher proceeds without enrichment — the
matcher call is issued first with the inbound signal and the three fan-out
calls are all still issued, also carrying the unmodified signal — and each
fan-out outcome is inserted into the results dict under its response-path
or `service_<index>` key, dependencies whose keys coincide sharing a
single entry. -/
theorem c4_matcher_failure_amended (cfg : Config) (net : Net) (signal : Doc)
    (h : isCallFailure net.matcher = true) :
    enrich signal net.matcher = signal ∧
    (distribute_signal cfg net signal).2 =
      [⟨get_full_url cfg.subscriber_matcher_url "match", signal, true⟩,
       ⟨get_full_url cfg.ai_signal_service_url "analyze", signal, false⟩,
       ⟨get_full_url cfg.news_ai_service_url "analyze", signal, false⟩,
       ⟨get_full_url cfg.telegram_service_url "send", signal, false⟩] ∧
    ((distribute_signal cfg net signal).1).map Prod.fst =
      insertKeyName (insertKeyName (insertKeyName []
          (resultKey 0 (get_full_url cfg.ai_signal_service_url "analyze") net.ai_signal))
        (resultKey 1 (get_full_url cfg.news_ai_service_url "analyze") net.news_ai))
        (resultKey 2 (get_full_url cfg.telegram_service_url "send") net.telegram) := by
  have he := enrich_failure signal net.matcher h
  refine ⟨he, ?_, ?_⟩
  · show [(⟨_, signal, true⟩ : OutCall),
      ⟨_, enrich signal net.matcher, false⟩,
      ⟨_, enrich signal net.matcher, false⟩,
      ⟨_, enrich signal net.matcher, false⟩] = _
    rw [he]
  · show (procOne (procOne (procOne []
        0 (get_full_url cfg.ai_signal_service_url "analyze") net.ai_signal)
        1 (get_full_url cfg.news_ai_service_url "analyze") net.news_ai)
        2 (get_full_url cfg.telegram_service_url "send") net.telegram).map Prod.fst = _
    rw [keys_procOne, keys_procOne, keys_procOne]
    rfl

/-- C4 witness: the closed instance at the concrete signal and the network
whose matcher raises while the fan-out succeeds. -/
theorem c4_matcher_failure_amended_witness :
    enrich sigEx netMatcherFail.matcher = sigEx ∧
    (distribute_signal cfgEx netMatcherFail sigEx).2 =
      [⟨get_full_url cfgEx.subscriber_matcher_url "match", sigEx, true⟩,
       ⟨get_full_url cfgEx.ai_signal_service_url "analyze", sigEx, false⟩,
       ⟨get_full_url cfgEx.news_ai_service_url "analyze", sigEx, false⟩,
       ⟨get_full_url cfgEx.telegram_service_url "send", sigEx, false⟩] ∧
    ((distribute_signal cfgEx netMatcherFail sigEx).1).map Prod.fst =
      insertKeyName (insertKeyName (insertKeyName []
          (resultKey 0 (get_full_url cfgEx.ai_signal_service_url "analyze") netMatcherFail.ai_signal))
        (resultKey 1 (get_full_url cfgEx.news_ai_service_url "analyze") netMatcherFail.news_ai))
        (resultKey 2 (get_full_url cfgEx.telegram_service_url "send") netMatcherFail.telegram) :=
  c4_matcher_failure_amended cfgEx netMatcherFail sigEx (by decide)

/-- C5: the aggregation of every fan-out call is exactly the spec's outcome
taxonomy — one dict store whose value is the parsed body when the status is
exactly 200 and the body parses as JSON, an `{"error": <raw body text>}`
object when the status is not 200, and an `{"error": <exception message>}`
object when the call (or its body parse) cannot complete — and a request
with any mix of such failures still yields the orchestration-level success
response, so a transport failure is converted to a value and never aborts
the dispatch. -/
theorem c5_outcome_classification :
    (∀ (results : Doc) (i : Nat) (url : String) (r : CallResp),
      procOne results i url r =
        setKey results (resultKey i url r) (specOutcomeValue r)) ∧
    (∀ (cfg : Config) (net : Net) (signal : Doc), validSignal signal = true →
      (process_signal cfg net signal).1 =
        SigResponse.success (distribute_signal cfg net signal).1) := by
  refine ⟨procOne_eq, fun cfg net signal hv => ?_⟩
  rw [process_signal_valid cfg net signal hv]

/-- C5 witness: the classification equation at a concrete 404 response, and
the orchestration-level success at a concrete valid signal over a network
mixing success, remote error and transport error. -/
theorem c5_outcome_classification_witness :
    procOne [] 1 (get_full_url "news.example.com" "analyze")
        (CallResp.resp 404 "not found" (Except.error "not json")) =
      setKey [] (resultKey 1 (get_full_url "news.example.com" "analyze")
          (CallResp.resp 404 "not found" (Except.error "not json")))
        (specOutcomeValue (CallResp.resp 404 "not found" (Except.error "not json"))) ∧
    (process_signal cfgEx netMixed sigEx).1 =
      SigResponse.success (distribute_signal cfgEx netMixed sigEx).1 :=
  ⟨c5_outcome_classification.1 [] 1 (get_full_url "news.example.com" "analyze")
      (CallResp.resp 404 "not found" (Except.error "not json")),
   c5_outcome_classification.2 cfgEx netMixed sigEx (by decide)⟩

/-- C6: every downstream call carries the inbound signal document
unchanged except possibly at the single key `chat_ids`: the matcher call
(first in the log) carries the inbound signal itself, the three fan-out
calls carry the enriched signal, which agrees with the inbound signal on
every key other than `chat_ids` and is either literally the inbound signal
or the inbound signal with a matcher-derived `chat_ids` list stored. -/
theorem c6_payload_frame (cfg : Config) (net : Net) (signal : Doc) :
    ((distribute_signal cfg net signal).2).map OutCall.payload =
      [signal, enrich signal net.matcher, enrich signal net.matcher,
       enrich signal net.matcher] ∧
    (∀ k, k ≠ "chat_ids" →
      getKey? (enrich signal net.matcher) k = getKey? signal k) ∧
    (enrich signal net.matcher = signal ∨
      ∃ ids, enrich signal net.matcher = setKey signal "chat_ids" (JVal.arr ids)) := by
  refine ⟨rfl, ?_, enrich_cases signal net.matcher⟩
  intro k hk
  rcases enrich_cases signal net.matcher with he | ⟨ids, he⟩
  · rw [he]
  · rw [he, getKey?_setKey_ne signal "chat_ids" k (JVal.arr ids) hk]

/-- C6 witness: the closed instance at the concrete signal and all-OK
network, with the frame condition applied at the key `"symbol"`. -/
theorem c6_payload_frame_witness :
    ((distribute_signal cfgEx netAllOk sigEx).2).map OutCall.payload =
      [sigEx, enrich sigEx netAllOk.matcher, enrich sigEx netAllOk.matcher,
       enrich sigEx netAllOk.matcher] ∧
    getKey? (enrich sigEx netAllOk.matcher) "symbol" = getKey? sigEx "symbol" ∧
    (enrich sigEx netAllOk.matcher = sigEx ∨
      ∃ ids, enrich sigEx netAllOk.matcher = setKey sigEx "chat_ids" (JVal.arr ids)) := by
  obtain ⟨h1, h2, h3⟩ := c6_payload_frame cfgEx netAllOk sigEx
  exact ⟨h1, h2 "symbol" (by decide), h3⟩

/-- C7, counterexample: appending a trailing slash to the base can change
the result.  The base `"http:/"` lacks an `http://`/`https://` scheme, so
it is resolved to `"https://http:/analyze"`, but with one more trailing
slash it becomes `"http://"`, which passes the scheme test and resolves to
`"http:/analyze"` — refuting the claim that for every base extra trailing
slashes never change the result. -/
theorem c7_resolver_counterexample :
    get_full_url "http:/" "analyze" = "https://http:/analyze" ∧
    get_full_url ("http:/" ++ "/") "analyze" = "http:/analyze" ∧
    get_full_url ("http:/" ++ "/") "analyze" ≠ get_full_url "http:/" "analyze" := by
  exact ⟨rfl, rfl, by decide⟩

/-- C7, amended: both concrete examples hold; extra leading slashes on the
path never change the result; and extra trailing slashes on the base do not
change the result whenever appending them does not change whether the base
passes the `http://`/`https://` scheme test (which it always does for a
well-formed base, but can for malformed bases such as `"http:/"`). -/
theorem c7_resolver_amended :
    get_full_url "example.com" "analyze" = "https://example.com/analyze" ∧
    get_full_url "https://example.com/" "/analyze" = "https://example.com/analyze" ∧
    (∀ (base p : String) (n : Nat),
      get_full_url base (slashes n ++ p) = get_full_url base p) ∧
    (∀ (base p : String) (n : Nat),
      hasScheme (base ++ slashes n) = hasScheme base →
      get_full_url (base ++ slashes n) p = get_full_url base p) := by
  refine ⟨rfl, rfl, ?_, ?_⟩
  · intro base p n
    unfold get_full_url
    rw [lstripSlash_slashes]
  · intro base p n h
    by_cases hb : hasScheme base = true
    · have hb2 : hasScheme (base ++ slashes n) = true := by rw [h, hb]
      unfold get_full_url
      rw [if_pos hb2, if_pos hb]
      show rstripSlash (base ++ slashes n) ++ "/" ++ lstripSlash p =
        rstripSlash base ++ "/" ++ lstripSlash p
      rw [rstripSlash_append_slashes]
    · have hb' : hasScheme base = false := Bool.not_eq_true _ ▸ eq_false_of_ne_true hb
      have hb2 : hasScheme (base ++ slashes n) = false := by rw [h, hb']
      unfold get_full_url
      rw [if_neg (by rw [hb2]; exact Bool.false_ne_true),
        if_neg (by rw [hb']; exact Bool.false_ne_true)]
      show rstripSlash ("https://" ++ (base ++ slashes n)) ++ "/" ++ lstripSlash p =
        rstripSlash ("https://" ++ base) ++ "/" ++ lstripSlash p
      rw [← String.append_assoc, rstripSlash_append_slashes]

/-- C7 witness: the trailing-slash invariance applied at a well-formed base
that keeps its scheme status, discharging the hypothesis concretely. -/
theorem c7_resolver_amended_witness :
    get_full_url ("https://example.com" ++ slashes 2) "x" =
      get_full_url "https://example.com" "x" :=
  c7_resolver_amended.2.2.2 "https://example.com" "x" 2 (by decide)

/-- C8: `health_check` (a total function: it only reports, never raises)
records for each configured dependency, in order, exactly the spec's
classification — `missing_url` for an unset or empty address, `healthy` on
a 200 probe, `unhealthy_<code>` on any other status, `error_<message>` on a
probe exception; the composite status is `healthy` exactly when every
dependency reports `healthy` and `degraded` otherwise; in particular an
unset telegram address yields composite `degraded` with the telegram
dependency reported as `missing_url`. -/
theorem c8_health_classification (env : HEnv) (probes : HProbes) :
    (health_check env probes).dependencies = specHealthDeps env probes ∧
    ((health_check env probes).status =
      if (specHealthDeps env probes).all (fun p => p.2 = "healthy")
      then "healthy" else "degraded") ∧
    (pyFalsy env.telegram = true →
      (health_check env probes).status = "degraded" ∧
      lookupDep (health_check env probes).dependencies "telegram" =
        some "missing_url") := by
  have hdeps : (health_check env probes).dependencies = specHealthDeps env probes := by
    unfold health_check
    rw [healthStep_eq, healthStep_eq, healthStep_eq, healthStep_eq]
    simp [specHealthDeps]
  have hstatus : (health_check env probes).status =
      if (specHealthDeps env probes).all (fun p => p.2 = "healthy")
      then "healthy" else "degraded" := by
    unfold health_check
    rw [healthStep_eq, healthStep_eq, healthStep_eq, healthStep_eq]
    simp only [specHealthDeps, List.all_cons, List.all_nil]
    by_cases h1 : classifyDep env.telegram probes.telegram = "healthy" <;>
    by_cases h2 : classifyDep env.ai_signal probes.ai_signal = "healthy" <;>
    by_cases h3 : classifyDep env.news_ai probes.news_ai = "healthy" <;>
    by_cases h4 : classifyDep env.subscriber_matcher probes.subscriber_matcher = "healthy" <;>
    simp [h1, h2, h3, h4]
  refine ⟨hdeps, hstatus, fun hf => ?_⟩
  have hc1 : classifyDep env.telegram probes.telegram = "missing_url" := by
    unfold classifyDep
    rw [if_pos hf]
  constructor
  · rw [hstatus]
    have hall : (specHealthDeps env probes).all (fun p => p.2 = "healthy") = false := by
      simp [specHealthDeps, hc1]
    simp [hall]
  · rw [hdeps]
    simp [lookupDep, specHealthDeps, hc1]

/-- C8 witness: the closed instance with the telegram address unset and all
probes answering 200. -/
theorem c8_health_classification_witness :
    (health_check envMissingTel probesOk).status = "degraded" ∧
    lookupDep (health_check envMissingTel probesOk).dependencies "telegram" =
      some "missing_url" :=
  (c8_health_classification envMissingTel probesOk).2.2 (by decide)

/-- C9, counterexample: on a run of `/signal`, only the subscriber-matcher
call uses the HTTP client's default certificate verification; the three
fan-out calls are issued with `ssl=False`, i.e. with TLS certificate
validation disabled, and nothing in the configuration can enable it — so
it is false that every outbound call verifies certificates by default. -/
theorem c9_tls_counterexample :
    ((distribute_signal cfgEx netAllOk sigEx).2).map OutCall.sslVerify =
      [true, false, false, false] ∧
    (false : Bool) ≠ true := by
  exact ⟨rfl, by decide⟩

/-- C9, amended: for every configuration, network and signal, the matcher
call verifies certificates (client default) while the three fan-out calls
are hardwired to `ssl=False`; and every health probe is likewise issued
with `ssl=False`.  Disabling verification is unconditional for those
calls, not an opt-in configuration. -/
theorem c9_tls_amended (cfg : Config) (net : Net) (signal : Doc)
    (env : HEnv) (probes : HProbes) :
    ((distribute_signal cfg net signal).2).map OutCall.sslVerify =
      [true, false, false, false] ∧
    ∀ c ∈ (health_check env probes).calls, c.sslVerify = false := by
  refine ⟨rfl, ?_⟩
  unfold health_check
  refine healthStep_calls_false _ _ _ _
    (healthStep_calls_false _ _ _ _
      (healthStep_calls_false _ _ _ _
        (healthStep_calls_false _ _ _ _ ?_)))
  intro c hc
  exact absurd hc (List.not_mem_nil c)

/-- C9 witness: the closed instance, with the health-probe conclusion
applied to the concrete telegram probe issued under `envEx`. -/
theorem c9_tls_amended_witness :
    ((distribute_signal cfgEx netAllOk sigEx).2).map OutCall.sslVerify =
      [true, false, false, false] ∧
    (ProbeCall.mk (get_full_url "t.example.com" "health") false).sslVerify = false :=
  ⟨(c9_tls_amended cfgEx netAllOk sigEx envEx probesOk).1,
   (c9_tls_amended cfgEx netAllOk sigEx envEx probesOk).2
     (ProbeCall.mk (get_full_url "t.example.com" "health") false) (by decide)⟩

/-- C10: enrichment is atomic.  If the matcher returns a 200 JSON object
whose `matched_subscribers` list contains any record without a usable
`chat_id` (the comprehension raises before the assignment runs), the
signal is left exactly as it came in — no partially built `chat_ids` is
attached — and all three fan-out calls are still issued carrying that
unenriched signal. -/
theorem c10_enrichment_atomic (cfg : Config) (net : Net) (signal : Doc)
    (text : String) (fields : List (String × JVal)) (subs : List JVal)
    (hm : net.matcher = CallResp.resp 200 text (Except.ok (JVal.obj fields)))
    (hsubs : getKey? fields "matched_subscribers" = some (JVal.arr subs))
    (hbad : subs.any (fun sub => (subChatId sub).isNone) = true) :
    enrich signal net.matcher = signal ∧
    ((distribute_signal cfg net signal).2).map OutCall.payload =
      [signal, signal, signal, signal] := by
  have he : enrich signal net.matcher = signal := by
    rw [hm]
    simp [enrich, extractChatIds, hsubs, chatIdList_none_of_any subs hbad]
  refine ⟨he, ?_⟩
  show [signal, enrich signal net.matcher, enrich signal net.matcher,
    enrich signal net.matcher] = [signal, signal, signal, signal]
  rw [he]

/-- C10 witness: the closed instance at the network whose matcher answers
200 with one well-formed subscriber record and one record lacking
`chat_id`. -/
theorem c10_enrichment_atomic_witness :
    enrich sigEx netBadSub.matcher = sigEx ∧
    ((distribute_signal cfgEx netBadSub sigEx).2).map OutCall.payload =
      [sigEx, sigEx, sigEx, sigEx] :=
  c10_enrichment_atomic cfgEx netBadSub sigEx ""
    [("matched_subscribers",
      JVal.arr [JVal.obj [("chat_id", JVal.num 1)], JVal.obj [("name", JVal.str "x")]])]
    [JVal.obj [("chat_id", JVal.num 1)], JVal.obj [("name", JVal.str "x")]]
    rfl rfl (by decide)
